import Mathlib

/-!
Verification development for the DiffPatchSearch evaluation engine
(`se_gym/runner.py`): a shallow embedding of its data model and
operations, with theorems settling the specified properties.

Modelling conventions:
* Host file systems are total maps from paths (lists of components) to
  optional file contents.
* External processes (git commands run through `subprocess`, commands
  executed through the container runtime) are oracles: their exit code
  and captured output are parameters of the embedded functions.
* Python exceptions are values of an explicit error type; a function
  that can raise returns `Except`.
* Side effects that matter to the claims (workspace creation, container
  start, command execution, teardown, report parsing) are recorded as an
  explicit event trace.
-/

namespace SeGym

/-- A file-system path, as a list of components. -/
abbrev Path : Type := List String

/-- A host file system: a map from paths to file contents. -/
abbrev FS : Type := Path → Option String

/-- Writing one file: `open(p, "w"); write(c)`. -/
def FS.write (fs : FS) (p : Path) (c : String) : FS :=
  fun q => if q = p then some c else fs q

/-- The empty file system. -/
def FS.empty : FS := fun _ => none

/-- Result of a completed external process (`subprocess` style). -/
structure CmdResult where
  returncode : Int
  stdout : String
  stderr : String
deriving DecidableEq, Repr

/-- Result of `Container.exec_run`: exit code plus combined output. -/
structure ExecResult where
  exit_code : Int
  output : String
deriving DecidableEq, Repr

/-- An exception raised by the container runtime client while executing a
command; carried as its message. -/
abbrev DockerErr : Type := String

/-- The Python exceptions observable from `runner.py`.
`executionTimeout` is the `ExecutionTimeout` classification the
specification requires; it is part of the taxonomy so that its
reachability can be stated. -/
inductive PyExc where
  | calledProcessError (returncode : Int) (output : String)
  | attributeError (msg : String)
  | typeError (msg : String)
  | valueError (msg : String)
  | malformedPatch (msg : String) (output : String)
  | dockerError (msg : String)
  | xmlError (msg : String)
  | executionTimeout
deriving DecidableEq, Repr

/-- The host path `./temp{t}_file.patch`, relative to the process's
current working directory, where `t` is the rendered `time.time()`. -/
def tempPatchPath (cwd : Path) (t : String) : Path :=
  cwd ++ ["temp" ++ t ++ "_file.patch"]

/-- Embedding of `check_patch(code_base_root, patch)`.

Mirrors `runner.py` lines 117-136: write the patch to
`{code_base_root}/file.patch`; write it again to
`./temp{time.time()}_file.patch` in the current working directory; run
the configured patch-check command via `subprocess.check_output` (oracle
`gitCheck`).  `check_output` raises `CalledProcessError` whenever the
command exits non-zero, and on a zero exit returns the raw output bytes,
so the subsequent `res.returncode` attribute access raises
`AttributeError`. -/
def check_patch (fs : FS) (cwd root : Path) (patch : String) (t : String)
    (gitCheck : CmdResult) : Except PyExc Unit × FS :=
  let fs1 := FS.write fs (root ++ ["file.patch"]) patch
  let fs2 := FS.write fs1 (tempPatchPath cwd t) patch
  if gitCheck.returncode ≠ 0 then
    (Except.error (PyExc.calledProcessError gitCheck.returncode gitCheck.stdout), fs2)
  else
    (Except.error (PyExc.attributeError "bytes object has no attribute returncode"), fs2)

/-- Rendering of a path the way Python's `os.path.join` result appears
inside f-string error messages. -/
def pathStr (p : Path) : String :=
  String.intercalate "/" p

/-- The message of the `ValueError` raised when the target file is
missing: `f"File {file_path} not found"`. -/
def fileNotFoundMsg (p : Path) : String :=
  "File " ++ pathStr p ++ " not found"

/-- The message of the `ValueError` raised when the old fragment is
missing: `f"Old code not found in the {file_path}"`. -/
def fragmentNotFoundMsg (p : Path) : String :=
  "Old code not found in the " ++ pathStr p

/-- The committed (HEAD) tree of the repository at the codebase root:
contents keyed by root-relative paths. -/
abbrev Tree : Type := List (Path × String)

/-- Content of a tracked file in the committed tree. -/
def Tree.lookup (head : Tree) (p : Path) : Option String :=
  (head.find? (fun e => e.1 == p)).map (fun e => e.2)

/-- Modelled from the spec: `config.GIT_DISCARD_CHANGES` (absent from the
sources; only `runner.py` invokes it) is the version-control
collaborator's "discard-working-tree-changes" command template, run with
the codebase root as working directory.  It restores the working tree
under that directory to the committed state. -/
def discardChanges (head : Tree) (root : Path) (fs : FS) : FS :=
  fun q => if root.isPrefixOf q then Tree.lookup head (q.drop root.length) else fs q

/-- Bool test that `pat` occurs as a contiguous sublist of `s`
(Python's `pat in s` on strings, over the character lists). -/
def listContains (pat : List Char) : List Char → Bool
  | [] => pat.isEmpty
  | c :: rest => pat.isPrefixOf (c :: rest) || listContains pat rest

/-- Python's `old in content` substring test. -/
def strContains (s pat : String) : Bool :=
  listContains pat.data s.data

/-- Fuel-indexed core of Python's `str.replace` for a non-empty pattern:
replace non-overlapping occurrences left to right.  The fuel is an upper
bound on the number of characters consumed; each step consumes at least
one character, so fuel `s.length` never runs out. -/
def pyReplaceAux (pat rep : List Char) : Nat → List Char → List Char
  | _, [] => []
  | 0, s => s
  | fuel + 1, c :: rest =>
    if pat.isPrefixOf (c :: rest) && !pat.isEmpty then
      rep ++ pyReplaceAux pat rep fuel (List.drop pat.length (c :: rest))
    else
      c :: pyReplaceAux pat rep fuel rest

/-- Python's `str.replace(pat, rep)` (all occurrences).  An empty pattern
matches between every pair of characters, as in Python. -/
def pyReplace (s pat rep : String) : String :=
  if pat.isEmpty then
    String.mk (rep.data ++ (s.data.map (fun c => c :: rep.data)).flatten)
  else
    String.mk (pyReplaceAux pat.data rep.data s.length s.data)

/-- Embedding of `generate_patch(code_base_root, filename, old_code,
new_code)` (`runner.py` lines 139-166): discard uncommitted changes in
the codebase root, check that the target file exists (`ValueError` with
the file-not-found message otherwise), read it, check that `old_code`
occurs in it (`ValueError` with the fragment-not-found message
otherwise), write back the content with `old_code` replaced by
`new_code`, capture `git diff` output (oracle `diffOut`, produced by the
external diff command), and discard the changes again before returning
the diff text. -/
def generate_patch (head : Tree) (root : Path) (filename : Path)
    (old_code new_code : String) (diffOut : String) (fs : FS) :
    Except PyExc String × FS :=
  let fs1 := discardChanges head root fs
  let file_path := root ++ filename
  match fs1 file_path with
  | none => (Except.error (PyExc.valueError (fileNotFoundMsg file_path)), fs1)
  | some file_content =>
    if strContains file_content old_code then
      let fs2 := FS.write fs1 file_path (pyReplace file_content old_code new_code)
      (Except.ok diffOut, discardChanges head root fs2)
    else
      (Except.error (PyExc.valueError (fragmentNotFoundMsg file_path)), fs1)

/-- The observable resource/step events of one evaluation. -/
inductive Event where
  | createWorkspace
  | startContainer
  | execCmd (c : String)
  | stopContainer
  | removeContainer
  | removeWorkspace
  | parseReport
deriving DecidableEq, Repr

/-- Modelled from the spec: `config.GIT_APPLY_PATCH` (absent from the
sources) is the version-control collaborator's "apply-patch" shell
command template; only its identity as the patch-apply command matters
here. -/
def GIT_APPLY_PATCH : String := "apply-patch"

/-- The fixed test command run by `apply_patch_and_test` by default. -/
def DEFAULT_TEST_COMMAND : String := "pytest --junitxml=testresults.xml"

/-- Embedding of `apply_patch(code_base_root, patch)` (`runner.py` lines
169-185).  `CodeExecutor.__init__` creates the temporary workspace copy
and starts the container; `run_command` executes the patch-apply command
(oracle `applyRes`; `Except.error` is the container client raising).
The executor is destroyed before the exit code is inspected, so both the
success and the malformed-patch outcome tear down; an exception from
`run_command` propagates without any teardown.  The second component is
the event trace. -/
def apply_patch (applyRes : Except DockerErr ExecResult) :
    Except PyExc Unit × List Event :=
  let ev0 : List Event := [Event.createWorkspace, Event.startContainer,
    Event.execCmd GIT_APPLY_PATCH]
  match applyRes with
  | Except.error e => (Except.error (PyExc.dockerError e), ev0)
  | Except.ok r =>
    let ev1 := ev0 ++ [Event.stopContainer, Event.removeContainer, Event.removeWorkspace]
    if r.exit_code ≠ 0 then
      (Except.error (PyExc.malformedPatch "Failed to apply patch" r.output), ev1)
    else
      (Except.ok (), ev1)

/-- One XML child element of a testcase node: its tag and its text. -/
structure XChild where
  tag : String
  text : Option String
deriving DecidableEq, Repr

/-- One `<testcase>` node of the pytest report: its `classname` and
`name` attributes (absent attributes are `none`, as `Element.get`
returns `None`) and its child elements. -/
structure Testcase where
  classname : Option String
  name : Option String
  children : List XChild
deriving DecidableEq, Repr

/-- `Element.find(tag)`: the first direct child with the given tag. -/
def Testcase.findChild (tc : Testcase) (tag : String) : Option XChild :=
  tc.children.find? (fun c => c.tag == tag)

/-- The report document, abstracted to its `<testcase>` nodes in document
order (what `tree.iter("testcase")` yields). -/
abbrev XmlTree : Type := List Testcase

/-- Embedding of `apply_patch_and_test(code_base_root, patch, command)`
(`runner.py` lines 188-214).  Workspace copy and container creation,
then the patch-apply command (oracle `applyRes`); a non-zero exit raises
`MalformedPatchException` with no teardown; otherwise the test command
runs (oracle `testRes`), then `cat testresults.xml` retrieves the report
(oracle `catRes`), then the executor is destroyed, and only then is the
captured XML text parsed by `ET.fromstring` (oracle `parsed`;
`Except.error` is `ParseError`).  The second component is the event
trace. -/
def apply_patch_and_test (applyRes testRes catRes : Except DockerErr ExecResult)
    (command : String) (parsed : Except String XmlTree) :
    Except PyExc XmlTree × List Event :=
  let ev0 : List Event := [Event.createWorkspace, Event.startContainer,
    Event.execCmd GIT_APPLY_PATCH]
  match applyRes with
  | Except.error e => (Except.error (PyExc.dockerError e), ev0)
  | Except.ok ra =>
    if ra.exit_code ≠ 0 then
      (Except.error (PyExc.malformedPatch "Failed to apply patch" ra.output), ev0)
    else
      let ev1 := ev0 ++ [Event.execCmd command]
      match testRes with
      | Except.error e => (Except.error (PyExc.dockerError e), ev1)
      | Except.ok _ =>
        let ev2 := ev1 ++ [Event.execCmd "cat testresults.xml"]
        match catRes with
        | Except.error e => (Except.error (PyExc.dockerError e), ev2)
        | Except.ok _ =>
          let ev3 := ev2 ++ [Event.stopContainer, Event.removeContainer,
            Event.removeWorkspace, Event.parseReport]
          match parsed with
          | Except.error e => (Except.error (PyExc.xmlError e), ev3)
          | Except.ok x => (Except.ok x, ev3)

/-- The normalized verdict of one test case.  `message = none` when the
result dictionary has no `"message"` key; `some txt` stores the child
element's text (itself optional, as `.text` can be `None`). -/
structure TCVerdict where
  status : String
  message : Option (Option String)
deriving DecidableEq, Repr

/-- The classification of a single testcase node, with the source's
precedence: failure, then error, then skipped, then passed. -/
def classifyCase (tc : Testcase) : TCVerdict :=
  match tc.findChild "failure" with
  | some f => { status := "failed", message := some f.text }
  | none =>
    match tc.findChild "error" with
    | some e => { status := "error", message := some e.text }
    | none =>
      match tc.findChild "skipped" with
      | some s => { status := "skipped", message := some s.text }
      | none => { status := "passed", message := none }

/-- `testcase.get("classname") + "." + testcase.get("name")`: a missing
attribute is `None`, making the concatenation raise `TypeError`. -/
def Testcase.ident (tc : Testcase) : Except PyExc String :=
  match tc.classname, tc.name with
  | some c, some n => Except.ok (c ++ "." ++ n)
  | _, _ => Except.error (PyExc.typeError "unsupported operand for +: NoneType and str")

/-- The identity key a testcase node contributes when both attributes are
present: `classname + "." + name`. -/
def caseKey (tc : Testcase) : String :=
  tc.classname.getD "" ++ "." ++ tc.name.getD ""

/-- Python dict assignment `d[k] = v`: overwrite in place when the key is
present, append otherwise (insertion order preserved). -/
def dictSet (d : List (String × TCVerdict)) (k : String) (v : TCVerdict) :
    List (String × TCVerdict) :=
  if d.any (fun e => e.1 == k) then
    d.map (fun e => if e.1 == k then (k, v) else e)
  else
    d ++ [(k, v)]

/-- The loop of `parse_pytest_xml` over the testcase nodes, carrying the
accumulated `test_results` dictionary. -/
def parse_pytest_xml_go : List Testcase → List (String × TCVerdict) →
    Except PyExc (List (String × TCVerdict))
  | [], acc => Except.ok acc
  | tc :: rest, acc =>
    match tc.ident with
    | Except.error e => Except.error e
    | Except.ok k => parse_pytest_xml_go rest (dictSet acc k (classifyCase tc))

/-- Embedding of `parse_pytest_xml(tree)` (`runner.py` lines 217-242):
fold over the testcase nodes, keying each verdict by
`classname + "." + name`. -/
def parse_pytest_xml (tree : XmlTree) : Except PyExc (List (String × TCVerdict)) :=
  parse_pytest_xml_go tree []

/-- A started container, as far as naming is concerned. -/
structure Container where
  mount_dir : Path
  name : String
deriving DecidableEq, Repr

/-- Embedding of `Container.__init__` (`runner.py` lines 66-75): the
container is named `f"se_gym_container_{time.time()}"`, where `t` is the
rendered clock reading; nothing else enters the name. -/
def Container.init (mount_dir : Path) (t : String) : Container :=
  { mount_dir := mount_dir, name := "se_gym_container_" ++ t }

/-- Claim C1: the claim says `check_patch` either completes normally or
raises `MalformedPatchException`; in fact it never does either.  On a
non-zero exit of the patch-check command, `subprocess.check_output`
raises `CalledProcessError` before the classification code runs; on a
zero exit, the returned bytes have no `returncode` attribute, so the
inspection itself raises `AttributeError`.  The
`MalformedPatchException` branch is unreachable. -/
theorem check_patch_never_malformed (fs : FS) (cwd root : Path) (patch t : String)
    (g : CmdResult) :
    (∀ u, (check_patch fs cwd root patch t g).1 ≠ Except.ok u) ∧
    (∀ m o, (check_patch fs cwd root patch t g).1 ≠
      Except.error (PyExc.malformedPatch m o)) ∧
    (g.returncode ≠ 0 →
      (check_patch fs cwd root patch t g).1 =
        Except.error (PyExc.calledProcessError g.returncode g.stdout)) := by
  unfold check_patch
  by_cases h : g.returncode = 0 <;> simp [h]

/-- Witness for C1 at a concrete failing run. -/
theorem check_patch_never_malformed_witness :
    (check_patch FS.empty [] ["repo"] "p" "1700.0" ⟨1, "err", ""⟩).1 =
      Except.error (PyExc.calledProcessError 1 "err") :=
  (check_patch_never_malformed FS.empty [] ["repo"] "p" "1700.0" ⟨1, "err", ""⟩).2.2
    (by decide)

/-- Claim C2: the claim says `check_patch` does not mutate the passed-in
codebase root; in fact it always writes the patch text to
`{code_base_root}/file.patch`, so the tree under the root changes
whenever that file was absent or had different content. -/
theorem check_patch_mutates_root (fs : FS) (cwd root : Path) (patch t : String)
    (g : CmdResult) :
    (check_patch fs cwd root patch t g).2 (root ++ ["file.patch"]) = some patch ∧
    (fs (root ++ ["file.patch"]) ≠ some patch →
      (check_patch fs cwd root patch t g).2 (root ++ ["file.patch"]) ≠
        fs (root ++ ["file.patch"])) := by
  have h1 : (check_patch fs cwd root patch t g).2 (root ++ ["file.patch"]) = some patch := by
    unfold check_patch
    by_cases hg : g.returncode = 0 <;>
      by_cases hab : root ++ ["file.patch"] = tempPatchPath cwd t <;>
        simp [FS.write, hg, hab]
  refine ⟨h1, fun hne => ?_⟩
  rw [h1]
  exact fun he => hne he.symm

/-- Witness for C2 at a concrete run on a root that lacks `file.patch`. -/
theorem check_patch_mutates_root_witness :
    (check_patch FS.empty [] ["repo"] "p" "1700.0" ⟨0, "", ""⟩).2
        (["repo"] ++ ["file.patch"]) ≠
      FS.empty (["repo"] ++ ["file.patch"]) :=
  (check_patch_mutates_root FS.empty [] ["repo"] "p" "1700.0" ⟨0, "", ""⟩).2
    (by simp [FS.empty])

/-- Claim C3: the claim says every exit path of `apply_patch` and
`apply_patch_and_test` destroys the created workspace and container
exactly once; in fact, when the patch-apply command exits non-zero
inside `apply_patch_and_test`, the function raises
`MalformedPatchException` before `executor.destroy()` is reached, so the
container keeps running and the temporary directory stays in place; the
same leak occurs in `apply_patch` when `run_command` itself raises. -/
theorem apply_patch_and_test_leaks_on_malformed :
    ((apply_patch_and_test (Except.ok ⟨1, "corrupt patch"⟩) (Except.ok ⟨0, ""⟩)
        (Except.ok ⟨0, ""⟩) DEFAULT_TEST_COMMAND (Except.ok [])).1 =
      Except.error (PyExc.malformedPatch "Failed to apply patch" "corrupt patch")) ∧
    (Event.createWorkspace ∈ (apply_patch_and_test (Except.ok ⟨1, "corrupt patch"⟩)
      (Except.ok ⟨0, ""⟩) (Except.ok ⟨0, ""⟩) DEFAULT_TEST_COMMAND (Except.ok [])).2) ∧
    (Event.startContainer ∈ (apply_patch_and_test (Except.ok ⟨1, "corrupt patch"⟩)
      (Except.ok ⟨0, ""⟩) (Except.ok ⟨0, ""⟩) DEFAULT_TEST_COMMAND (Except.ok [])).2) ∧
    (Event.stopContainer ∉ (apply_patch_and_test (Except.ok ⟨1, "corrupt patch"⟩)
      (Except.ok ⟨0, ""⟩) (Except.ok ⟨0, ""⟩) DEFAULT_TEST_COMMAND (Except.ok [])).2) ∧
    (Event.removeContainer ∉ (apply_patch_and_test (Except.ok ⟨1, "corrupt patch"⟩)
      (Except.ok ⟨0, ""⟩) (Except.ok ⟨0, ""⟩) DEFAULT_TEST_COMMAND (Except.ok [])).2) ∧
    (Event.removeWorkspace ∉ (apply_patch_and_test (Except.ok ⟨1, "corrupt patch"⟩)
      (Except.ok ⟨0, ""⟩) (Except.ok ⟨0, ""⟩) DEFAULT_TEST_COMMAND (Except.ok [])).2) ∧
    ((apply_patch (Except.error "docker exec failed")).1 =
      Except.error (PyExc.dockerError "docker exec failed")) ∧
    (Event.createWorkspace ∈ (apply_patch (Except.error "docker exec failed")).2) ∧
    (Event.stopContainer ∉ (apply_patch (Except.error "docker exec failed")).2) ∧
    (Event.removeWorkspace ∉ (apply_patch (Except.error "docker exec failed")).2) :=
  ⟨rfl, by decide, by decide, by decide, by decide, by decide, rfl, by decide,
    by decide, by decide⟩

/-- Claim C9: the claim says container names are collision-free because
they incorporate a globally unique identifier; in fact the name is
`"se_gym_container_" ++ str(time.time())`, a pure function of the clock
reading alone, so two containers created in the same clock tick — even
for different workspaces — receive the same name. -/
theorem container_name_collision (d1 d2 : Path) (t : String) :
    (Container.init d1 t).name = (Container.init d2 t).name ∧
    (Container.init ["workspace_a"] "1718000000.0").name =
      (Container.init ["workspace_b"] "1718000000.0").name ∧
    (["workspace_a"] : Path) ≠ ["workspace_b"] := by
  refine ⟨rfl, rfl, by decide⟩

/-- Counterexample for C5: in a concrete successful evaluation the
teardown events (stop container, remove container, remove workspace)
all occur among the first eight steps, before the report-parsing step,
so parsing does not complete before teardown starts. -/
theorem apply_patch_and_test_teardown_precedes_parse :
    ((apply_patch_and_test (Except.ok ⟨0, "applied"⟩) (Except.ok ⟨1, "testlog"⟩)
        (Except.ok ⟨0, "<testsuite/>"⟩) DEFAULT_TEST_COMMAND (Except.ok [])).2 =
      [Event.createWorkspace, Event.startContainer, Event.execCmd GIT_APPLY_PATCH,
       Event.execCmd DEFAULT_TEST_COMMAND, Event.execCmd "cat testresults.xml",
       Event.stopContainer, Event.removeContainer, Event.removeWorkspace,
       Event.parseReport]) ∧
    (Event.stopContainer ∈
      ((apply_patch_and_test (Except.ok ⟨0, "applied"⟩) (Except.ok ⟨1, "testlog"⟩)
        (Except.ok ⟨0, "<testsuite/>"⟩) DEFAULT_TEST_COMMAND (Except.ok [])).2).take 8) ∧
    (Event.removeWorkspace ∈
      ((apply_patch_and_test (Except.ok ⟨0, "applied"⟩) (Except.ok ⟨1, "testlog"⟩)
        (Except.ok ⟨0, "<testsuite/>"⟩) DEFAULT_TEST_COMMAND (Except.ok [])).2).take 8) ∧
    (Event.parseReport ∉
      ((apply_patch_and_test (Except.ok ⟨0, "applied"⟩) (Except.ok ⟨1, "testlog"⟩)
        (Except.ok ⟨0, "<testsuite/>"⟩) DEFAULT_TEST_COMMAND (Except.ok [])).2).take 8) :=
  ⟨by decide, by decide, by decide, by decide⟩

/-- Claim C5 (amended): in every evaluation whose external steps all
complete, the event order is: workspace creation, container start,
patch-apply command, test command, report retrieval, then teardown
(container stop, container removal, workspace removal), and report
parsing starts only after teardown completes — not before teardown as
the original claim states. -/
theorem apply_patch_and_test_success_order (ra rt rc : ExecResult)
    (h : ra.exit_code = 0) (cmd : String) (p : Except String XmlTree) :
    (apply_patch_and_test (Except.ok ra) (Except.ok rt) (Except.ok rc) cmd p).2 =
      [Event.createWorkspace, Event.startContainer, Event.execCmd GIT_APPLY_PATCH,
       Event.execCmd cmd, Event.execCmd "cat testresults.xml",
       Event.stopContainer, Event.removeContainer, Event.removeWorkspace,
       Event.parseReport] := by
  unfold apply_patch_and_test
  cases p <;> simp [h]

/-- Witness for the amended C5 at a concrete evaluation. -/
theorem apply_patch_and_test_success_order_witness :
    (apply_patch_and_test (Except.ok ⟨0, "ok"⟩) (Except.ok ⟨0, "log"⟩)
        (Except.ok ⟨0, "<testsuite/>"⟩) DEFAULT_TEST_COMMAND
        (Except.error "no element found")).2 =
      [Event.createWorkspace, Event.startContainer, Event.execCmd GIT_APPLY_PATCH,
       Event.execCmd DEFAULT_TEST_COMMAND, Event.execCmd "cat testresults.xml",
       Event.stopContainer, Event.removeContainer, Event.removeWorkspace,
       Event.parseReport] :=
  apply_patch_and_test_success_order ⟨0, "ok"⟩ ⟨0, "log"⟩ ⟨0, "<testsuite/>"⟩ rfl
    DEFAULT_TEST_COMMAND (Except.error "no element found")

/-- Claim C8: the claim says a bounded wall-clock budget is enforced and
a timed-out evaluation fails with a distinct `ExecutionTimeout`
classification; in fact `Container.run_command` passes no deadline to
the container runtime and no code path of `apply_patch` or
`apply_patch_and_test` ever produces the `ExecutionTimeout`
classification, for any behaviour of the external commands. -/
theorem no_execution_timeout_classification (a t c : Except DockerErr ExecResult)
    (cmd : String) (p : Except String XmlTree) :
    (apply_patch_and_test a t c cmd p).1 ≠ Except.error PyExc.executionTimeout ∧
    (apply_patch a).1 ≠ Except.error PyExc.executionTimeout := by
  constructor
  · cases a with
    | error e => simp [apply_patch_and_test]
    | ok ra =>
      cases t <;> cases c <;> cases p <;>
        simp only [apply_patch_and_test] <;> split <;> simp_all
  · cases a with
    | error e => simp [apply_patch]
    | ok ra =>
      simp only [apply_patch]
      split <;> simp

/-- A directory is a prefix of any path extending it. -/
theorem isPrefixOf_append (root filename : Path) :
    root.isPrefixOf (root ++ filename) = true := by
  rw [List.isPrefixOf_iff_prefix]
  exact List.prefix_append root filename

/-- Discarding after writing a file under the root is the same as
discarding without the write. -/
theorem discardChanges_write_under (head : Tree) (root p : Path) (c : String)
    (fs : FS) (hp : root.isPrefixOf p = true) :
    discardChanges head root (FS.write fs p c) = discardChanges head root fs := by
  funext q
  unfold discardChanges FS.write
  by_cases hq : root.isPrefixOf q = true
  · simp [hq]
  · have hqp : q ≠ p := fun h => hq (h ▸ hp)
    simp [hq, hqp]

/-- Discarding working-tree changes is idempotent. -/
theorem discardChanges_idem (head : Tree) (root : Path) (fs : FS) :
    discardChanges head root (discardChanges head root fs) =
      discardChanges head root fs := by
  funext q
  unfold discardChanges
  by_cases hq : root.isPrefixOf q = true <;> simp [hq]

/-- On every exit path, the file system left behind by `generate_patch`
is the codebase root's committed state (everything outside the root
untouched). -/
theorem generate_patch_snd (head : Tree) (root filename : Path)
    (old_code new_code diffOut : String) (fs : FS) :
    (generate_patch head root filename old_code new_code diffOut fs).2 =
      discardChanges head root fs := by
  unfold generate_patch
  cases hfc : discardChanges head root fs (root ++ filename) with
  | none => simp [hfc]
  | some file_content =>
    simp only [hfc]
    by_cases hc : strContains file_content old_code = true
    · rw [if_pos hc]
      show discardChanges head root (FS.write (discardChanges head root fs)
          (root ++ filename) (pyReplace file_content old_code new_code)) =
        discardChanges head root fs
      rw [discardChanges_write_under head root (root ++ filename) _ _
          (isPrefixOf_append root filename), discardChanges_idem]
    · simp [hc]

/-- Counterexample for C6: a codebase root whose file `f` is committed
with content `"clean"` but dirty with content `"dirty"` at call time;
`generate_patch` returns normally, yet afterwards `f` holds `"clean"`,
not its pre-call content `"dirty"`, so the tree is not restored to its
original (pre-call) state. -/
theorem generate_patch_discards_dirty_state :
    ((generate_patch [(["f"], "clean")] ["r"] ["f"] "clean" "fixed" "DIFF"
        (FS.write FS.empty ["r", "f"] "dirty")).1 = Except.ok "DIFF") ∧
    ((generate_patch [(["f"], "clean")] ["r"] ["f"] "clean" "fixed" "DIFF"
        (FS.write FS.empty ["r", "f"] "dirty")).2 ["r", "f"] = some "clean") ∧
    ((FS.write FS.empty ["r", "f"] "dirty") ["r", "f"] = some "dirty") :=
  ⟨rfl, rfl, rfl⟩

/-- Claim C6 (amended): on every call, `generate_patch` leaves the
codebase root in its committed (HEAD) state — the first step discards
any uncommitted changes, so modifications present at call time are lost
rather than restored; when the tree is clean at entry this coincides
with the pre-call state. -/
theorem generate_patch_restores_committed_tree (head : Tree) (root filename : Path)
    (old_code new_code diffOut : String) (fs : FS) :
    ((generate_patch head root filename old_code new_code diffOut fs).2 =
      discardChanges head root fs) ∧
    (discardChanges head root fs = fs →
      (generate_patch head root filename old_code new_code diffOut fs).2 = fs) := by
  refine ⟨generate_patch_snd head root filename old_code new_code diffOut fs, ?_⟩
  intro hclean
  rw [generate_patch_snd head root filename old_code new_code diffOut fs, hclean]

/-- Witness for the amended C6 on a clean working tree. -/
theorem generate_patch_restores_committed_tree_witness :
    (generate_patch [(["f"], "clean")] ["r"] ["f"] "clean" "fixed" "DIFF"
        (discardChanges [(["f"], "clean")] ["r"] FS.empty)).2 =
      discardChanges [(["f"], "clean")] ["r"] FS.empty :=
  (generate_patch_restores_committed_tree [(["f"], "clean")] ["r"] ["f"]
      "clean" "fixed" "DIFF" (discardChanges [(["f"], "clean")] ["r"] FS.empty)).2
    (discardChanges_idem [(["f"], "clean")] ["r"] FS.empty)

/-- The two `ValueError` messages of `generate_patch` are always
distinct, so the two failure kinds are distinguishable. -/
theorem fileNotFoundMsg_ne_fragmentNotFoundMsg (p : Path) :
    fileNotFoundMsg p ≠ fragmentNotFoundMsg p := by
  intro h
  have h2 := congrArg String.length h
  unfold fileNotFoundMsg fragmentNotFoundMsg at h2
  simp only [String.length_append] at h2
  have e1 : ("File " : String).length = 5 := rfl
  have e2 : (" not found" : String).length = 10 := rfl
  have e3 : ("Old code not found in the " : String).length = 26 := rfl
  rw [e1, e2, e3] at h2
  omega

/-- Claim C7: `generate_patch` fails with the file-not-found
classification exactly when the target file is absent from the (cleaned)
codebase root, and with the fragment-not-found classification exactly
when the file exists but `old_code` does not occur verbatim in its
content; the two classifications are distinct. -/
theorem generate_patch_error_classification (head : Tree) (root filename : Path)
    (old_code new_code diffOut : String) (fs : FS) :
    ((generate_patch head root filename old_code new_code diffOut fs).1 =
        Except.error (PyExc.valueError (fileNotFoundMsg (root ++ filename))) ↔
      discardChanges head root fs (root ++ filename) = none) ∧
    ((generate_patch head root filename old_code new_code diffOut fs).1 =
        Except.error (PyExc.valueError (fragmentNotFoundMsg (root ++ filename))) ↔
      (∃ content, discardChanges head root fs (root ++ filename) = some content ∧
        strContains content old_code = false)) ∧
    fileNotFoundMsg (root ++ filename) ≠ fragmentNotFoundMsg (root ++ filename) := by
  have hmsg := fileNotFoundMsg_ne_fragmentNotFoundMsg (root ++ filename)
  have hmsg' := Ne.symm hmsg
  refine ⟨?_, ?_, hmsg⟩
  · unfold generate_patch
    cases hfc : discardChanges head root fs (root ++ filename) with
    | none => simp [hfc]
    | some content =>
      simp only [hfc]
      by_cases hc : strContains content old_code = true <;> simp [hc, hmsg, hmsg']
  · unfold generate_patch
    cases hfc : discardChanges head root fs (root ++ filename) with
    | none => simp [hfc, hmsg, hmsg']
    | some content =>
      simp only [hfc]
      by_cases hc : strContains content old_code = true <;> simp [hc, hmsg, hmsg']

/-- Claim C10: every call to `check_patch`, on either of its outcomes,
leaves a file named `temp{t}_file.patch` holding the patch text at a
path rooted in the process's current working directory; when that
working directory is not inside the codebase root, the file lies
outside the root; and `generate_patch` — whose effects are confined to
the codebase root — never removes it. -/
theorem check_patch_leaves_temp_file (fs : FS) (cwd root : Path) (patch t : String)
    (g : CmdResult) :
    ((check_patch fs cwd root patch t g).2 (tempPatchPath cwd t) = some patch) ∧
    (tempPatchPath cwd t = cwd ++ ["temp" ++ t ++ "_file.patch"]) ∧
    (root.isPrefixOf cwd = false → root ≠ tempPatchPath cwd t →
      root.isPrefixOf (tempPatchPath cwd t) = false) ∧
    (∀ head filename old_code new_code diffOut fs2,
      root.isPrefixOf (tempPatchPath cwd t) = false →
      (generate_patch head root filename old_code new_code diffOut fs2).2
          (tempPatchPath cwd t) = fs2 (tempPatchPath cwd t)) := by
  refine ⟨?_, rfl, ?_, ?_⟩
  · unfold check_patch
    by_cases hg : g.returncode = 0 <;> simp [hg, FS.write]
  · intro h1 h2
    by_contra hb
    have hb' : root <+: tempPatchPath cwd t := by
      rw [← List.isPrefixOf_iff_prefix]
      simpa using hb
    obtain ⟨u, hu⟩ := hb'
    rcases List.eq_nil_or_concat u with rfl | ⟨u', a, rfl⟩
    · exact h2 (by simpa using hu)
    · rw [List.concat_eq_append] at hu
      have hu' : (root ++ u') ++ [a] = cwd ++ ["temp" ++ t ++ "_file.patch"] := by
        rw [List.append_assoc]
        exact hu
      have hpre : root <+: cwd := ⟨u', (List.append_inj' hu' rfl).1⟩
      rw [← List.isPrefixOf_iff_prefix, h1] at hpre
      exact Bool.false_ne_true hpre
  · intro head filename old_code new_code diffOut fs2 hout
    rw [generate_patch_snd]
    unfold discardChanges
    simp [hout]

/-- Witness for C10 at a concrete call whose working directory is
outside the codebase root. -/
theorem check_patch_leaves_temp_file_witness :
    ((check_patch FS.empty [] ["repo"] "p" "1700.0" ⟨0, "", ""⟩).2
        (tempPatchPath [] "1700.0") = some "p") ∧
    ((["repo"] : Path).isPrefixOf (tempPatchPath [] "1700.0") = false) ∧
    ((generate_patch [] ["repo"] ["f"] "a" "b" "DIFF" FS.empty).2
        (tempPatchPath [] "1700.0") = FS.empty (tempPatchPath [] "1700.0")) :=
  ⟨(check_patch_leaves_temp_file FS.empty [] ["repo"] "p" "1700.0" ⟨0, "", ""⟩).1,
   (check_patch_leaves_temp_file FS.empty [] ["repo"] "p" "1700.0" ⟨0, "", ""⟩).2.2.1
     (by decide) (by decide),
   (check_patch_leaves_temp_file FS.empty [] ["repo"] "p" "1700.0" ⟨0, "", ""⟩).2.2.2
     [] ["f"] "a" "b" "DIFF" FS.empty (by decide)⟩

/-- Counterexample for C4: two testcase nodes sharing classname `"a"`
and name `"b"` collapse to a single mapping entry (2 nodes, 1 entry),
and a node lacking the `classname` attribute makes the parse raise
`TypeError` instead of returning a mapping. -/
theorem parse_pytest_xml_duplicate_keys :
    (parse_pytest_xml [⟨some "a", some "b", []⟩, ⟨some "a", some "b", []⟩] =
      Except.ok [("a.b", ⟨"passed", none⟩)]) ∧
    (([⟨some "a", some "b", []⟩, ⟨some "a", some "b", []⟩] : XmlTree).length = 2) ∧
    (parse_pytest_xml [⟨none, some "b", []⟩] =
      Except.error (PyExc.typeError "unsupported operand for +: NoneType and str")) :=
  ⟨rfl, rfl, rfl⟩

/-- When both attributes are present, the identity key is
`classname + "." + name`. -/
theorem Testcase.ident_eq (tc : Testcase) (hc : tc.classname.isSome = true)
    (hn : tc.name.isSome = true) :
    tc.ident = Except.ok (caseKey tc) := by
  obtain ⟨c, hcc⟩ := Option.isSome_iff_exists.mp hc
  obtain ⟨n, hnn⟩ := Option.isSome_iff_exists.mp hn
  simp [Testcase.ident, caseKey, hcc, hnn]

/-- Assigning a fresh key appends the entry at the end of the dict. -/
theorem dictSet_fresh (d : List (String × TCVerdict)) (k : String) (v : TCVerdict)
    (h : k ∉ d.map Prod.fst) : dictSet d k v = d ++ [(k, v)] := by
  have hany : d.any (fun e => e.1 == k) = false := by
    rw [List.any_eq_false]
    intro e he
    simp only [beq_iff_eq]
    intro hek
    exact h (hek ▸ List.mem_map_of_mem Prod.fst he)
  simp [dictSet, hany]

/-- The parse loop, when every node has both attributes and all derived
keys are fresh and pairwise distinct, appends one entry per node. -/
theorem parse_pytest_xml_go_eq (tree : List Testcase) :
    ∀ acc : List (String × TCVerdict),
    (∀ tc ∈ tree, tc.classname.isSome = true ∧ tc.name.isSome = true) →
    (tree.map caseKey).Nodup →
    (∀ tc ∈ tree, caseKey tc ∉ acc.map Prod.fst) →
    parse_pytest_xml_go tree acc =
      Except.ok (acc ++ tree.map (fun tc => (caseKey tc, classifyCase tc))) := by
  induction tree with
  | nil =>
    intro acc _ _ _
    simp [parse_pytest_xml_go]
  | cons tc rest ih =>
    intro acc hattr hnodup hfresh
    have hid : tc.ident = Except.ok (caseKey tc) :=
      Testcase.ident_eq tc (hattr tc (by simp)).1 (hattr tc (by simp)).2
    have hnodup' : (caseKey tc ∉ rest.map caseKey) ∧ (rest.map caseKey).Nodup := by
      rw [List.map_cons, List.nodup_cons] at hnodup
      exact hnodup
    simp only [parse_pytest_xml_go, hid]
    rw [dictSet_fresh acc (caseKey tc) (classifyCase tc) (hfresh tc (by simp))]
    rw [ih (acc ++ [(caseKey tc, classifyCase tc)])
      (fun tc' h => hattr tc' (by simp [h]))
      hnodup'.2
      ?_]
    · simp
    intro tc' h
    simp only [List.map_append, List.mem_append]
    push_neg
    refine ⟨hfresh tc' (by simp [h]), ?_⟩
    simp only [List.map_cons, List.mem_singleton, List.map_nil]
    intro heq
    exact hnodup'.1 (heq ▸ List.mem_map_of_mem caseKey h)

/-- Claim C4 (amended): for a report whose testcase nodes all carry both
`classname` and `name` attributes and whose derived keys
`classname + "." + name` are pairwise distinct, `parse_pytest_xml`
returns one entry per node, in document order, each classified with the
failure-error-skipped-passed precedence; with duplicate keys, a later
node overwrites the earlier entry, so the mapping has fewer entries than
nodes. -/
theorem parse_pytest_xml_distinct_keys (tree : XmlTree)
    (hattr : ∀ tc ∈ tree, tc.classname.isSome = true ∧ tc.name.isSome = true)
    (hkeys : (tree.map caseKey).Nodup) :
    (parse_pytest_xml tree =
      Except.ok (tree.map (fun tc => (caseKey tc, classifyCase tc)))) ∧
    ((tree.map (fun tc => (caseKey tc, classifyCase tc))).length = tree.length) := by
  refine ⟨?_, by simp⟩
  unfold parse_pytest_xml
  have h := parse_pytest_xml_go_eq tree [] hattr hkeys (by simp)
  simpa using h

/-- Witness for the amended C4 on a two-node report with distinct keys:
a failed case (message = failure text) and a passed case (no message). -/
theorem parse_pytest_xml_distinct_keys_witness :
    parse_pytest_xml [⟨some "m", some "t1", [⟨"failure", some "boom"⟩]⟩,
        ⟨some "m", some "t2", []⟩] =
      Except.ok [("m.t1", ⟨"failed", some (some "boom")⟩),
        ("m.t2", ⟨"passed", none⟩)] :=
  (parse_pytest_xml_distinct_keys
    [⟨some "m", some "t1", [⟨"failure", some "boom"⟩]⟩, ⟨some "m", some "t2", []⟩]
    (by decide) (by decide)).1

end SeGym
